import Mathlib

/-!
Shallow embedding of the render/update engine of `meca3-solar-system`
(`src/common/update.ts`) over exact rational arithmetic.

JavaScript `number` arithmetic is idealised over `ℚ`: decimal literals are
exact rationals, `Math.floor` is `Int.floor`, `Math.floor (Math.log10 si)`
for `si > 0` is `Int.log 10 si`, and the JS remainder operator `%`
(truncated toward zero) is `jsMod` / `Int.tmod`.  The special values
`NaN` and `-Infinity` produced by `Math.log10` on non-positive inputs are
embedded explicitly by the `JSExp` type, and a `NaN` flowing into a result
is an `Option.none`.

External collaborators (the meca3 solver, three.js vector normalisation and
quaternion construction) are parameters of the embedded functions: the
theorems quantify over them, so every statement is about the data flow of
this repository's own code.
-/

/-- A three.js `Vector3`, idealised over `ℚ`. -/
structure Vec3 where
  x : ℚ
  y : ℚ
  z : ℚ
  deriving DecidableEq

def Vec3.zero : Vec3 := ⟨0, 0, 0⟩

/-- `a.sub b`, componentwise subtraction (three.js `Vector3.sub`). -/
def Vec3.sub (a b : Vec3) : Vec3 := ⟨a.x - b.x, a.y - b.y, a.z - b.z⟩

/-- three.js `Vector3.negate`. -/
def Vec3.neg (a : Vec3) : Vec3 := ⟨-a.x, -a.y, -a.z⟩

/-- three.js `Vector3.multiplyScalar`. -/
def Vec3.multiplyScalar (a : Vec3) (s : ℚ) : Vec3 := ⟨a.x * s, a.y * s, a.z * s⟩

/-- A three.js `Quaternion` value (only carried around; the engine never
inspects its components). -/
structure Quat where
  qx : ℚ
  qy : ℚ
  qz : ℚ
  qw : ℚ
  deriving DecidableEq

/-- A mutable scene object as the engine sees it: a position and an
orientation (three.js `Object3D.position` / rotation quaternion). -/
structure RenderObject where
  position : Vec3
  quaternion : Quat
  deriving DecidableEq

def defaultRenderObject : RenderObject := ⟨Vec3.zero, ⟨0, 0, 0, 1⟩⟩

/-- A meca3 `Point` (a Body): identity, mass, current state and the
trajectory ring buffer of past positions (exposed by logical index). -/
structure Point where
  id : String
  mass : ℚ
  position : Vec3
  speed : Vec3
  trajectory : List Vec3
  deriving DecidableEq

def pointDefault : Point := ⟨"", 0, Vec3.zero, Vec3.zero, []⟩

/-- The meca3 `Barycenter` as the renderer reads it. -/
structure Barycenter where
  position : Vec3
  trajectory : List Vec3
  deriving DecidableEq

/-- `trajectory.get(k)`: sample at logical index `k` (oldest first). -/
def trajGet (t : List Vec3) (k : ℕ) : Vec3 := t.getD k Vec3.zero

/-- Modelled from the spec: the `Frame` selector type of the missing
`settings.ts` (§3) — `Fixed` (the source's `null` case), `Barycentric`
(the source's `"barycenter"` case), or a Body index (the source's
`default` case). -/
inductive Frame where
  | fixed : Frame
  | barycenter : Frame
  | body : ℕ → Frame
  deriving DecidableEq

/-- Modelled from the spec: the `Settings` record of the missing
`settings.ts` (§3) — render scale, seconds advanced per tick, integration
sample count, current frame selector. -/
structure Settings where
  scale : ℚ
  speed : ℚ
  samples : ℚ
  frame : Frame
  deriving DecidableEq

/-- `framePosition` from `src/common/update.ts`. -/
def framePosition (frame : Frame) (points : List Point) (barycenter : Barycenter) : Vec3 :=
  match frame with
  | .fixed => Vec3.zero
  | .barycenter => barycenter.position
  | .body i => (points.getD i pointDefault).position

/-- `frameTrajectory` from `src/common/update.ts` (`none` is JS `null`). -/
def frameTrajectory (frame : Frame) (points : List Point) (barycenter : Barycenter) :
    Option (List Vec3) :=
  match frame with
  | .fixed => none
  | .barycenter => some barycenter.trajectory
  | .body i => some (points.getD i pointDefault).trajectory

/-- `frameLabel` from `src/common/update.ts`. -/
def frameLabel (frame : Frame) (points : List Point) : String :=
  match frame with
  | .fixed => "fixed"
  | .barycenter => "barycenter"
  | .body i => (points.getD i pointDefault).id

/-- Modelled from the spec: the `Duration.Minutes` entry of the missing
`constants.ts` (a minute in seconds, §4.2). -/
def Duration.Minutes : ℚ := 60

/-- Modelled from the spec: `Duration.Hour` (an hour in seconds). -/
def Duration.Hour : ℚ := 3600

/-- Modelled from the spec: `Duration.Day` (a day in seconds). -/
def Duration.Day : ℚ := 86400

/-- Modelled from the spec: `Duration.Month` (a 30-day month in seconds,
§4.2). -/
def Duration.Month : ℚ := 30 * 86400

/-- Modelled from the spec: `Duration.Year` (a 365-day year in seconds). -/
def Duration.Year : ℚ := 365 * 86400

/-- JS truncation toward zero (`Math.trunc`, the rounding used by `%`). -/
def jsTrunc (q : ℚ) : ℤ := if 0 ≤ q then ⌊q⌋ else ⌈q⌉

/-- The JS remainder operator `a % b` on numbers (truncated division). -/
def jsMod (a b : ℚ) : ℚ := a - b * (jsTrunc (a / b) : ℤ)

/-- The value of `Math.floor(Math.log10 si)` as JS computes it:
`NaN` for negative input, `-Infinity` at zero, and the exact
floor of the base-10 logarithm (`Int.log 10`) for positive input. -/
inductive JSExp where
  | nan : JSExp
  | neginf : JSExp
  | fin : ℤ → JSExp
  deriving DecidableEq

def floorLog10 (si : ℚ) : JSExp :=
  if si < 0 then .nan else if si = 0 then .neginf else .fin (Int.log 10 si)

/-- JS comparison `e < c` for the embedded exponent (false on `NaN`). -/
def JSExp.ltC (e : JSExp) (c : ℤ) : Bool :=
  match e with
  | .nan => false
  | .neginf => true
  | .fin z => decide (z < c)

/-- JS comparison `e >= c` (false on `NaN`). -/
def JSExp.geC (e : JSExp) (c : ℤ) : Bool :=
  match e with
  | .nan => false
  | .neginf => false
  | .fin z => decide (c ≤ z)

/-- JS comparison `e <= c` (false on `NaN`). -/
def JSExp.leC (e : JSExp) (c : ℤ) : Bool :=
  match e with
  | .nan => false
  | .neginf => true
  | .fin z => decide (z ≤ c)

/-- Modelled from the spec: the SI prefix enumeration `UnitPrefix` of the
missing `constants.ts`; renamed `UnitPref` here. The source's collapse
branches use its `None`, `Giga` and `Nano` members. -/
inductive UnitPref where
  | Yocto | Zepto | Atto | Femto | Pico | Nano | Micro | Milli | None
  | Kilo | Mega | Giga | Tera | Peta | Exa | Zetta | Yotta
  deriving DecidableEq

/-- Modelled from the spec: `UNIT_MAP` of the missing `constants.ts`, the
fixed table giving the SI prefix of every multiple-of-3 exponent from the
negative collapse bound `-24` to the positive collapse bound `24` (§4.2);
`none` is an absent (JS `undefined`) entry. -/
def UNIT_MAP (exp3 : ℤ) : Option UnitPref :=
  if exp3 = -24 then some .Yocto else if exp3 = -21 then some .Zepto
  else if exp3 = -18 then some .Atto else if exp3 = -15 then some .Femto
  else if exp3 = -12 then some .Pico else if exp3 = -9 then some .Nano
  else if exp3 = -6 then some .Micro else if exp3 = -3 then some .Milli
  else if exp3 = 0 then some .None else if exp3 = 3 then some .Kilo
  else if exp3 = 6 then some .Mega else if exp3 = 9 then some .Giga
  else if exp3 = 12 then some .Tera else if exp3 = 15 then some .Peta
  else if exp3 = 18 then some .Exa else if exp3 = 21 then some .Zetta
  else if exp3 = 24 then some .Yotta else none

/-- Result of `makeUnit`: a scaled value and a prefix.  `value = none`
embeds a JS `NaN`, `unit = none` an undefined table lookup. -/
structure UnitResult where
  value : Option ℚ
  unit : Option UnitPref
  deriving DecidableEq

/-- `makeUnit` from `src/common/update.ts`.  Branch order and conditions as
in the source: `exp < 3 && exp >= 0`, then `exp >= 24`, then `exp <= -24`,
else the multiple-of-3 bucket `exp3 = exp - rem + (exp < 0 && rem !== 0 ?
-3 : 0)` with `rem = exp % 3`.  A `NaN` exponent (negative input) falls
through every comparison into the bucket branch and yields `NaN`/undefined. -/
def makeUnit (si : ℚ) : UnitResult :=
  let exp := floorLog10 si
  if exp.ltC 3 && exp.geC 0 then ⟨some si, some .None⟩
  else if exp.geC 24 then ⟨some (si / 10 ^ (9 : ℕ)), some .Giga⟩
  else if exp.leC (-24) then ⟨some (si / (1 / 10 ^ (9 : ℕ))), some .Nano⟩
  else
    match exp with
    | .fin e =>
      let rem := Int.tmod e 3
      let exp3 := e - rem + (if e < 0 ∧ rem ≠ 0 then -3 else 0)
      ⟨some (si * (10 : ℚ) ^ (-exp3)), UNIT_MAP exp3⟩
    | _ => ⟨none, none⟩

/-- The value returned by `makeTime`, with each template string replaced by
the branch it came from together with the numeric components interpolated
into it (`toFixed` and the final string rendering are presentation only). -/
inductive TimeStr where
  | years : ℚ → TimeStr
  | monthsDays : ℚ → ℤ → TimeStr
  | daysHours : ℤ → ℤ → TimeStr
  | hoursMinutes : ℤ → ℤ → TimeStr
  | minutesSeconds : ℤ → ℤ → TimeStr
  | unit : UnitResult → TimeStr
  deriving DecidableEq

/-- `makeTime` from `src/common/update.ts`: the descending threshold
cascade, with `Math.floor` as `Int.floor` and `%` as `jsMod`. -/
def makeTime (secs : ℚ) : TimeStr :=
  let years := secs / Duration.Year
  let months := secs / Duration.Month
  let days := secs / Duration.Day
  let hours := secs / Duration.Hour
  let minutes := secs / Duration.Minutes
  if 1 ≤ years then .years years
  else if 1 ≤ months then .monthsDays months ⌊jsMod months 30⌋
  else if 1 ≤ days then .daysHours ⌊days⌋ ⌊jsMod hours 24⌋
  else if 1 ≤ hours then .hoursMinutes ⌊hours⌋ ⌊jsMod minutes 60⌋
  else if 1 ≤ minutes then .minutesSeconds ⌊minutes⌋ ⌊jsMod secs 60⌋
  else .unit (makeUnit secs)

/-- The duration cascade as the amended claim C2 states it: descending
whole-unit thresholds on the raw seconds; the years branch carries the
years value alone; the months branch carries the fractional month count
and `floor(months % 30)`; the days, hours and minutes branches carry the
whole coarse count and the remainder in the next-finer unit; sub-minute
input delegates to `makeUnit`. -/
def makeTimeSpec (secs : ℚ) : TimeStr :=
  if Duration.Year ≤ secs then .years (secs / Duration.Year)
  else if Duration.Month ≤ secs then
    .monthsDays (secs / Duration.Month) ⌊jsMod (secs / Duration.Month) 30⌋
  else if Duration.Day ≤ secs then
    .daysHours ⌊secs / Duration.Day⌋ ⌊jsMod (secs / Duration.Hour) 24⌋
  else if Duration.Hour ≤ secs then
    .hoursMinutes ⌊secs / Duration.Hour⌋ ⌊jsMod (secs / Duration.Minutes) 60⌋
  else if Duration.Minutes ≤ secs then
    .minutesSeconds ⌊secs / Duration.Minutes⌋ ⌊jsMod secs 60⌋
  else .unit (makeUnit secs)

/-- A meca3 `Vector6` solver state: position and speed halves. -/
structure Vec6 where
  pos : Vec3
  spd : Vec3
  deriving DecidableEq

/-- Result of one `updateSimulation` tick: the updated points, the updated
barycenter, and the integration step written into `solver.timer.dt`. -/
structure SimResult where
  points : List Point
  barycenter : Barycenter
  dt : ℚ
  deriving DecidableEq

/-- `updateSimulation` from `src/common/update.ts`, with the external meca3
operations as parameters: `advance dt duration` is `solver.advance`
(after `solver.timer.dt` is assigned `dt`), `pointUpdate` is
`point.update(state)`, `baryUpdate` is `barycenter.update(points)`. -/
def updateSimulation (advance : ℚ → ℚ → List Vec6)
    (pointUpdate : Point → Vec6 → Point)
    (baryUpdate : Barycenter → List Point → Barycenter)
    (points : List Point) (barycenter : Barycenter) (settings : Settings) : SimResult :=
  let dt := settings.speed / settings.samples
  let states := advance dt settings.speed
  let newPoints := List.zipWith pointUpdate points states
  ⟨newPoints, baryUpdate barycenter newPoints, dt⟩

/-- `updateLightObject` from `src/common/update.ts`:
`object.position.set(...points[idx].position).sub(frame).multiplyScalar(scale)`. -/
def updateLightObject (idx : ℕ) (points : List Point) (barycenter : Barycenter)
    (object : RenderObject) (settings : Settings) : RenderObject :=
  let frame := framePosition settings.frame points barycenter
  let position := (points.getD idx pointDefault).position
  { object with position := (position.sub frame).multiplyScalar settings.scale }

/-- `updateSpheresObject` from `src/common/update.ts`: every entity of
`[barycenter, ...points]` has its sphere's position set to the
frame-relative scaled current position. -/
def updateSpheresObject (points : List Point) (barycenter : Barycenter)
    (spheres : List RenderObject) (settings : Settings) : List RenderObject :=
  let frame := framePosition settings.frame points barycenter
  List.zipWith
    (fun (p : Vec3) (sphere : RenderObject) =>
      { sphere with position := (p.sub frame).multiplyScalar settings.scale })
    (barycenter.position :: points.map Point.position)
    spheres

/-- The canonical up axis `new THREE.Vector3(0, 1, 0)` of `updateLinesObject`. -/
def upVector : Vec3 := ⟨0, 1, 0⟩

/-- The inner `line.forEach` of `updateLinesObject`.  `vnorm` is three.js
`Vector3.normalize` and `sfuv` is three.js `Quaternion.setFromUnitVectors`
(per the spec, the shortest-arc rotation of its first argument onto its
second); both are external and passed in as parameters.  `prev` carries the
previous vertex's position as already rewritten by this pass (the source
mutates the markers in place and reads `previousLine.position` after the
write), starting from the world origin at `vIdx = 0`. -/
def updateLineGo (vnorm : Vec3 → Vec3) (sfuv : Vec3 → Vec3 → Quat)
    (frame : Option (List Vec3)) (scale : ℚ) (traj : List Vec3)
    (prev : Vec3) (k : ℕ) : List RenderObject → List RenderObject
  | [] => []
  | _vertex :: rest =>
    let position := trajGet traj k
    let pos :=
      match frame with
      | none => Vec3.zero
      | some f => trajGet f k
    let newPos := (position.sub pos).multiplyScalar scale
    let direction := vnorm ((newPos.sub prev).neg)
    ⟨newPos, sfuv upVector direction⟩ ::
      updateLineGo vnorm sfuv frame scale traj newPos (k + 1) rest

/-- `updateLinesObject` from `src/common/update.ts`: walks
`[barycenter, ...points]` in order against the per-entity marker lists. -/
def updateLinesObject (vnorm : Vec3 → Vec3) (sfuv : Vec3 → Vec3 → Quat)
    (points : List Point) (barycenter : Barycenter)
    (lines : List (List RenderObject)) (settings : Settings) : List (List RenderObject) :=
  let frame := frameTrajectory settings.frame points barycenter
  List.zipWith
    (fun (traj : List Vec3) (line : List RenderObject) =>
      updateLineGo vnorm sfuv frame settings.scale traj Vec3.zero 0 line)
    (barycenter.trajectory :: points.map Point.trajectory)
    lines

/-- The render-space position `updateLinesObject` writes for sample `k`:
the trajectory sample minus the frame trajectory's sample at the same
index (the origin for the fixed frame), scaled by `settings.scale`. -/
def linePos (frame : Option (List Vec3)) (scale : ℚ) (traj : List Vec3) (k : ℕ) : Vec3 :=
  ((trajGet traj k).sub
    (match frame with
     | none => Vec3.zero
     | some f => trajGet f k)).multiplyScalar scale

/-- A three.js `OrthographicCamera` as `updateAxesMesh` reads it. -/
structure Camera where
  top : ℚ
  bottom : ℚ
  zoom : ℚ
  deriving DecidableEq

/-- An axis-overlay mesh: the cumulative multiplicative factor applied so
far to its geometry (three.js `geometry.scale` compounds), and its
position. -/
structure AxesMesh where
  geometryScale : ℚ
  position : Vec3
  deriving DecidableEq

/-- `updateAxesMesh` from `src/common/update.ts`: computes
`scale = (camera.top - camera.bottom) / camera.zoom / 800`, applies
`transfer = scale / scaleF` to every mesh's geometry and position, and
returns `scale`. -/
def updateAxesMesh (camera : Camera) (frame : List AxesMesh) (scaleF : ℚ) :
    List AxesMesh × ℚ :=
  let scale := (camera.top - camera.bottom) / camera.zoom / 800
  let transfer := scale / scaleF
  (frame.map (fun mesh =>
    ⟨mesh.geometryScale * transfer, mesh.position.multiplyScalar transfer⟩), scale)

theorem Vec3.sub_zeroVec (a : Vec3) : a.sub Vec3.zero = a := by
  cases a
  simp [Vec3.sub, Vec3.zero]

theorem Vec3.sub_self_scalar (a : Vec3) (s : ℚ) :
    (a.sub a).multiplyScalar s = Vec3.zero := by
  cases a
  simp [Vec3.sub, Vec3.multiplyScalar, Vec3.zero]

theorem Vec3.multiplyScalar_one (a : Vec3) : a.multiplyScalar 1 = a := by
  cases a
  simp [Vec3.multiplyScalar]

theorem zipWithGetD {α β γ : Type _} (f : α → β → γ) (da : α) (db : β) (dc : γ) :
    ∀ (la : List α) (lb : List β) (j : ℕ), j < la.length → j < lb.length →
      (List.zipWith f la lb).getD j dc = f (la.getD j da) (lb.getD j db) := by
  intro la
  induction la with
  | nil => intro lb j ha _; simp at ha
  | cons a la ih =>
    intro lb j ha hb
    cases lb with
    | nil => simp at hb
    | cons b lb =>
      cases j with
      | zero => rfl
      | succ j =>
        simp only [List.zipWith_cons_cons, List.getD_cons_succ]
        exact ih lb j (by simpa using ha) (by simpa using hb)

/-- C5: for every Body list and Barycenter, the frame resolver returns the
zero vector and a `null` trajectory for the Fixed selector (label
`"fixed"`), the Barycenter's position and trajectory for the Barycentric
selector (label `"barycenter"`), and Body `i`'s position, trajectory and
id for `BodyRelative(i)` with a valid index `i`. -/
theorem frameResolver_cases (points : List Point) (bary : Barycenter) (i : ℕ)
    (hi : i < points.length) :
    (framePosition Frame.fixed points bary = Vec3.zero
      ∧ frameTrajectory Frame.fixed points bary = none
      ∧ frameLabel Frame.fixed points = "fixed")
  ∧ (framePosition Frame.barycenter points bary = bary.position
      ∧ frameTrajectory Frame.barycenter points bary = some bary.trajectory
      ∧ frameLabel Frame.barycenter points = "barycenter")
  ∧ (framePosition (Frame.body i) points bary = (points.getD i pointDefault).position
      ∧ frameTrajectory (Frame.body i) points bary
          = some (points.getD i pointDefault).trajectory
      ∧ frameLabel (Frame.body i) points = (points.getD i pointDefault).id) :=
  ⟨⟨rfl, rfl, rfl⟩, ⟨rfl, rfl, rfl⟩, ⟨rfl, rfl, rfl⟩⟩

theorem frameResolver_cases_witness :
    frameLabel (Frame.body 0) [⟨"earth", 1, ⟨1, 2, 3⟩, Vec3.zero, []⟩] = "earth"
  ∧ framePosition Frame.fixed [⟨"earth", 1, ⟨1, 2, 3⟩, Vec3.zero, []⟩] ⟨⟨4, 5, 6⟩, []⟩
      = Vec3.zero := by
  have h := frameResolver_cases [⟨"earth", 1, ⟨1, 2, 3⟩, Vec3.zero, []⟩]
    ⟨⟨4, 5, 6⟩, []⟩ 0 (by decide)
  exact ⟨(h.2.2.2.2).trans rfl, h.1.1⟩

/-- C6: the body position projector writes
`(body.position - basisPosition) * settings.scale` into the target's
position field and changes nothing else (the result is the input object
with only `position` replaced, its quaternion untouched); as a corollary,
with the `BodyRelative(idx)` frame the projected position of Body `idx`
itself is the zero vector.  The same per-sphere write is performed by
`updateSpheresObject` for every entity (Barycenter first, then Bodies). -/
theorem updateLightObject_single_write (idx : ℕ) (points : List Point)
    (bary : Barycenter) (object : RenderObject) (spheres : List RenderObject)
    (settings : Settings) (hidx : idx < points.length) :
    (updateLightObject idx points bary object settings =
      { object with position :=
          (((points.getD idx pointDefault).position).sub
            (framePosition settings.frame points bary)).multiplyScalar settings.scale })
  ∧ ((updateLightObject idx points bary object settings).quaternion = object.quaternion)
  ∧ (settings.frame = Frame.body idx →
      (updateLightObject idx points bary object settings).position = Vec3.zero)
  ∧ (∀ j, j < spheres.length → j < points.length + 1 →
      (updateSpheresObject points bary spheres settings).getD j defaultRenderObject =
        { spheres.getD j defaultRenderObject with position :=
            (((bary.position :: points.map Point.position).getD j Vec3.zero).sub
              (framePosition settings.frame points bary)).multiplyScalar settings.scale }) := by
  refine ⟨rfl, rfl, ?_, ?_⟩
  · intro hf
    show (((points.getD idx pointDefault).position).sub
      (framePosition settings.frame points bary)).multiplyScalar settings.scale = Vec3.zero
    rw [hf]
    exact Vec3.sub_self_scalar _ _
  · intro j hj1 hj2
    unfold updateSpheresObject
    rw [zipWithGetD _ Vec3.zero defaultRenderObject defaultRenderObject _ _ j
      (by simpa using hj2) hj1]

theorem updateLightObject_single_write_witness :
    (updateLightObject 0 [⟨"earth", 1, ⟨1, 2, 3⟩, Vec3.zero, []⟩] ⟨⟨4, 5, 6⟩, []⟩
      ⟨⟨9, 9, 9⟩, ⟨0, 0, 0, 1⟩⟩ ⟨2, 10, 5, Frame.body 0⟩).position = Vec3.zero := by
  have h := updateLightObject_single_write 0 [⟨"earth", 1, ⟨1, 2, 3⟩, Vec3.zero, []⟩]
    ⟨⟨4, 5, 6⟩, []⟩ ⟨⟨9, 9, 9⟩, ⟨0, 0, 0, 1⟩⟩ [] ⟨2, 10, 5, Frame.body 0⟩ (by decide)
  exact h.2.2.1 rfl

/-- C10: one simulation tick assigns the solver's step
`dt = settings.speed / settings.samples`, advances the state by exactly
`settings.speed` seconds with that step, updates the Bodies in list order
from the solver output, and only then recomputes the Barycenter from the
already-updated Bodies: the resulting barycenter is `barycenter.update`
applied to the result's own (post-advance) point list. -/
theorem updateSimulation_order (advance : ℚ → ℚ → List Vec6)
    (pointUpdate : Point → Vec6 → Point)
    (baryUpdate : Barycenter → List Point → Barycenter)
    (points : List Point) (bary : Barycenter) (settings : Settings) :
    ((updateSimulation advance pointUpdate baryUpdate points bary settings).dt
        = settings.speed / settings.samples)
  ∧ ((updateSimulation advance pointUpdate baryUpdate points bary settings).points
        = List.zipWith pointUpdate points
            (advance (settings.speed / settings.samples) settings.speed))
  ∧ ((updateSimulation advance pointUpdate baryUpdate points bary settings).barycenter
        = baryUpdate bary
            (updateSimulation advance pointUpdate baryUpdate points bary settings).points) :=
  ⟨rfl, rfl, rfl⟩

/-- C8: the overlay scaler returns
`currentScale = (camera.top - camera.bottom) / camera.zoom / 800`, applies
`transfer = currentScale / scaleF` to every overlay mesh's geometry scale
and position, and feeding the returned scale back with an unchanged camera
makes the second call's transfer equal `1` and leave every mesh unchanged. -/
theorem updateAxesMesh_props (camera : Camera) (frame : List AxesMesh) (scaleF : ℚ)
    (hz : camera.zoom ≠ 0) (htb : camera.top ≠ camera.bottom) :
    ((updateAxesMesh camera frame scaleF).2
        = (camera.top - camera.bottom) / camera.zoom / 800)
  ∧ ((updateAxesMesh camera frame scaleF).1 = frame.map (fun mesh =>
      ⟨mesh.geometryScale * (((camera.top - camera.bottom) / camera.zoom / 800) / scaleF),
       mesh.position.multiplyScalar
         (((camera.top - camera.bottom) / camera.zoom / 800) / scaleF)⟩))
  ∧ ((updateAxesMesh camera frame scaleF).2 / (updateAxesMesh camera frame scaleF).2 = 1)
  ∧ ((updateAxesMesh camera ((updateAxesMesh camera frame scaleF).1)
        ((updateAxesMesh camera frame scaleF).2)).1
      = (updateAxesMesh camera frame scaleF).1) := by
  have hs : (camera.top - camera.bottom) / camera.zoom / 800 ≠ 0 :=
    div_ne_zero (div_ne_zero (sub_ne_zero.mpr htb) hz) (by norm_num)
  refine ⟨rfl, rfl, div_self hs, ?_⟩
  show ((updateAxesMesh camera frame scaleF).1).map _ = (updateAxesMesh camera frame scaleF).1
  simp only [updateAxesMesh, div_self hs, mul_one, Vec3.multiplyScalar_one]
  exact List.map_id _

theorem updateAxesMesh_props_witness :
    ((updateAxesMesh ⟨1, -1, 2⟩ [⟨3, ⟨1, 1, 1⟩⟩] 1).2 = 1 / 800)
  ∧ ((updateAxesMesh ⟨1, -1, 2⟩ ((updateAxesMesh ⟨1, -1, 2⟩ [⟨3, ⟨1, 1, 1⟩⟩] 1).1)
        ((updateAxesMesh ⟨1, -1, 2⟩ [⟨3, ⟨1, 1, 1⟩⟩] 1).2)).1
      = (updateAxesMesh ⟨1, -1, 2⟩ [⟨3, ⟨1, 1, 1⟩⟩] 1).1) := by
  have h := updateAxesMesh_props ⟨1, -1, 2⟩ [⟨3, ⟨1, 1, 1⟩⟩] 1 (by norm_num) (by norm_num)
  exact ⟨h.1.trans (by norm_num), h.2.2.2⟩

/-- C9 counterexample: the engine does not fail fast on a non-positive
magnitude.  `makeUnit (-5)` silently returns a `NaN` value with an
undefined unit (the very propagation the claim says is prevented), and
`makeUnit 0` silently returns the junk value `0` tagged nano; neither
input rejects the tick. -/
theorem makeUnit_silent_nan_counterexample :
    makeUnit (-5) = ⟨none, none⟩ ∧ makeUnit 0 = ⟨some 0, some UnitPref.Nano⟩ := by
  constructor
  · have hfl : floorLog10 (-5) = JSExp.nan := by
      unfold floorLog10
      rw [if_pos (by norm_num)]
    simp [makeUnit, hfl, JSExp.ltC, JSExp.geC, JSExp.leC]
  · have hfl : floorLog10 0 = JSExp.neginf := by
      unfold floorLog10
      rw [if_neg (by norm_num), if_pos rfl]
    simp [makeUnit, hfl, JSExp.ltC, JSExp.geC, JSExp.leC, zero_div]

/-- C9 amended: on a non-positive magnitude the formatter does not reject
anything: `makeUnit` totally computes, returning the junk result
`(0, nano)` at zero and silently propagating `NaN`/undefined for negative
input; no validation or tick rejection exists anywhere in the engine. -/
theorem makeUnit_nonpositive (si : ℚ) (h : si ≤ 0) :
    makeUnit si = if si = 0 then ⟨some 0, some UnitPref.Nano⟩ else ⟨none, none⟩ := by
  rcases lt_or_eq_of_le h with hlt | heq
  · have hfl : floorLog10 si = JSExp.nan := by
      unfold floorLog10
      rw [if_pos hlt]
    rw [if_neg (ne_of_lt hlt)]
    simp [makeUnit, hfl, JSExp.ltC, JSExp.geC, JSExp.leC]
  · subst heq
    have hfl : floorLog10 0 = JSExp.neginf := by
      unfold floorLog10
      rw [if_neg (by norm_num), if_pos rfl]
    simp [makeUnit, hfl, JSExp.ltC, JSExp.geC, JSExp.leC, zero_div]

theorem makeUnit_nonpositive_witness :
    makeUnit (-7) = if (-7 : ℚ) = 0 then ⟨some 0, some UnitPref.Nano⟩ else ⟨none, none⟩ :=
  makeUnit_nonpositive (-7) (by norm_num)

/-- C3: for strictly positive `si` with `exp = floor (log10 si)`: in the
range `0 ≤ exp < 3` the value is returned unchanged with the empty prefix;
for `exp ≥ 24` the value is `si / 1e9` tagged `Giga` (the prefix the
spec's collapse tier calls the largest supported one); for `exp ≤ -24` the
value is `si * 1e9` (the source divides by `1e-9`) tagged `Nano` (the
smallest supported prefix per the spec's collapse tier). -/
theorem makeUnit_ranges (si : ℚ) (hsi : 0 < si) :
    (0 ≤ Int.log 10 si → Int.log 10 si < 3 →
      makeUnit si = ⟨some si, some UnitPref.None⟩)
  ∧ (24 ≤ Int.log 10 si →
      makeUnit si = ⟨some (si / 10 ^ (9 : ℕ)), some UnitPref.Giga⟩)
  ∧ (Int.log 10 si ≤ -24 →
      makeUnit si = ⟨some (si * 10 ^ (9 : ℕ)), some UnitPref.Nano⟩) := by
  have hfl : floorLog10 si = JSExp.fin (Int.log 10 si) := by
    unfold floorLog10
    rw [if_neg (not_lt.mpr hsi.le), if_neg (ne_of_gt hsi)]
  refine ⟨fun h0 h3 => ?_, fun h24 => ?_, fun hn24 => ?_⟩
  · have hb : (JSExp.ltC (JSExp.fin (Int.log 10 si)) 3
        && JSExp.geC (JSExp.fin (Int.log 10 si)) 0) = true := by
      simp [JSExp.ltC, JSExp.geC, h0, h3]
    simp [makeUnit, hfl, hb]
  · have hb1 : (JSExp.ltC (JSExp.fin (Int.log 10 si)) 3
        && JSExp.geC (JSExp.fin (Int.log 10 si)) 0) = false := by
      simp only [JSExp.ltC, JSExp.geC]
      have : ¬ Int.log 10 si < 3 := by omega
      simp [this]
    have hb2 : JSExp.geC (JSExp.fin (Int.log 10 si)) 24 = true := by
      simp [JSExp.geC, h24]
    simp [makeUnit, hfl, hb1, hb2]
  · have hb1 : (JSExp.ltC (JSExp.fin (Int.log 10 si)) 3
        && JSExp.geC (JSExp.fin (Int.log 10 si)) 0) = false := by
      simp only [JSExp.ltC, JSExp.geC]
      have : ¬ (0 : ℤ) ≤ Int.log 10 si := by omega
      simp [this]
    have hb2 : JSExp.geC (JSExp.fin (Int.log 10 si)) 24 = false := by
      simp only [JSExp.geC]
      have : ¬ (24 : ℤ) ≤ Int.log 10 si := by omega
      simp [this]
    have hb3 : JSExp.leC (JSExp.fin (Int.log 10 si)) (-24) = true := by
      simp [JSExp.leC, hn24]
    simp only [makeUnit, hfl, hb1, hb2, hb3, Bool.false_eq_true, if_false, if_true]
    rw [one_div, div_eq_mul_inv, inv_inv]

theorem makeUnit_ranges_witness :
    makeUnit ((10 : ℚ) ^ (25 : ℤ))
      = ⟨some ((10 : ℚ) ^ (25 : ℤ) / 10 ^ (9 : ℕ)), some UnitPref.Giga⟩ := by
  have h10 : ((10 : ℕ) : ℚ) = (10 : ℚ) := by norm_num
  have hlog : Int.log 10 ((10 : ℚ) ^ (25 : ℤ)) = 25 := by
    rw [← h10]
    exact @Int.log_zpow ℚ _ _ 10 (by norm_num) 25
  exact (makeUnit_ranges ((10 : ℚ) ^ (25 : ℤ)) (by positivity)).2.1
    (by rw [hlog]; norm_num)

theorem exp3Eq (e : ℤ) (h1 : -24 < e) (h2 : e < 24) :
    e - Int.tmod e 3 + (if e < 0 ∧ Int.tmod e 3 ≠ 0 then -3 else 0)
      = 3 * Int.fdiv e 3 := by
  interval_cases e <;> decide

/-- C4: in the bucketed range (`-24 < exp < 24`, outside `0 ≤ exp < 3`) the
formatter picks `exp3` as the nearest lower multiple-of-3 exponent
(`3 * ⌊exp / 3⌋`, rounding toward more-negative exponents for negative
non-multiples, e.g. `-2` buckets to `-3`), scales the value by
`10 ^ (-exp3)`, looks the prefix up in the table, and the returned value
round-trips: `value * 10 ^ exp3 = si` exactly over `ℚ`. -/
theorem makeUnit_bucket (si : ℚ) (hsi : 0 < si)
    (h1 : -24 < Int.log 10 si) (h2 : Int.log 10 si < 24)
    (h3 : ¬(0 ≤ Int.log 10 si ∧ Int.log 10 si < 3)) :
    (makeUnit si =
      ⟨some (si * (10 : ℚ) ^ (-(3 * Int.fdiv (Int.log 10 si) 3))),
        UNIT_MAP (3 * Int.fdiv (Int.log 10 si) 3)⟩)
  ∧ si * (10 : ℚ) ^ (-(3 * Int.fdiv (Int.log 10 si) 3))
      * (10 : ℚ) ^ (3 * Int.fdiv (Int.log 10 si) 3) = si := by
  constructor
  · have hfl : floorLog10 si = JSExp.fin (Int.log 10 si) := by
      unfold floorLog10
      rw [if_neg (not_lt.mpr hsi.le), if_neg (ne_of_gt hsi)]
    have hb1 : (JSExp.ltC (JSExp.fin (Int.log 10 si)) 3
        && JSExp.geC (JSExp.fin (Int.log 10 si)) 0) = false := by
      simp only [JSExp.ltC, JSExp.geC]
      by_cases he : (0 : ℤ) ≤ Int.log 10 si
      · have h3' : ¬ Int.log 10 si < 3 := fun hlt => h3 ⟨he, hlt⟩
        simp [h3']
      · simp [he]
    have hb2 : JSExp.geC (JSExp.fin (Int.log 10 si)) 24 = false := by
      simp only [JSExp.geC]
      have : ¬ (24 : ℤ) ≤ Int.log 10 si := by omega
      simp [this]
    have hb3 : JSExp.leC (JSExp.fin (Int.log 10 si)) (-24) = false := by
      simp only [JSExp.leC]
      have : ¬ Int.log 10 si ≤ -24 := by omega
      simp [this]
    simp only [makeUnit, hfl, hb1, hb2, hb3, Bool.false_eq_true, if_false]
    rw [exp3Eq (Int.log 10 si) h1 h2]
  · rw [mul_assoc, zpow_neg, inv_mul_cancel₀ (zpow_ne_zero _ (by norm_num)), mul_one]

theorem makeUnit_bucket_witness :
    (makeUnit ((10 : ℚ) ^ (-1 : ℤ))).value = some 100
  ∧ (makeUnit ((10 : ℚ) ^ (-1 : ℤ))).unit = some UnitPref.Milli := by
  have h10 : ((10 : ℕ) : ℚ) = (10 : ℚ) := by norm_num
  have hlog : Int.log 10 ((10 : ℚ) ^ (-1 : ℤ)) = -1 := by
    rw [← h10]
    exact @Int.log_zpow ℚ _ _ 10 (by norm_num) (-1)
  have h := makeUnit_bucket ((10 : ℚ) ^ (-1 : ℤ)) (by positivity)
    (by rw [hlog]; norm_num) (by rw [hlog]; norm_num) (by rw [hlog]; norm_num)
  rw [h.1, hlog]
  constructor
  · show some ((10 : ℚ) ^ (-1 : ℤ) * 10 ^ (-(3 * Int.fdiv (-1) 3))) = some 100
    rw [show (-(3 * Int.fdiv (-1 : ℤ) 3)) = (3 : ℤ) from by decide,
      ← zpow_add₀ (by norm_num : (10 : ℚ) ≠ 0)]
    norm_num
  · show UNIT_MAP (3 * Int.fdiv (-1) 3) = some UnitPref.Milli
    rw [show (3 * Int.fdiv (-1 : ℤ) 3) = (-3 : ℤ) from by decide]
    decide

theorem ratFloorEq (r : ℚ) (z : ℤ) (h1 : (z : ℚ) ≤ r) (h2 : r < z + 1) : ⌊r⌋ = z :=
  Int.floor_eq_iff.mpr ⟨h1, by exact_mod_cast h2⟩

/-- C2 counterexample: the cascade does not always return the coarse value
plus the remainder in the next-finer unit.  At one year the years branch
returns a one-part result (no remainder component), and at 75 days
(6480000 s) the months branch returns `2.50 m 2 d` — its day component is
`floor(months % 30) = 2`, the whole-month count, not the 15 days actually
remaining after 2 whole months. -/
theorem makeTime_c2_counterexample :
    makeTime (365 * 86400) = TimeStr.years 1
  ∧ makeTime 6480000 = TimeStr.monthsDays (5 / 2) 2
  ∧ ⌊((6480000 : ℚ) - 2 * Duration.Month) / Duration.Day⌋ = 15
  ∧ (2 : ℤ) ≠ 15 := by
  refine ⟨?_, ?_, ?_, by decide⟩
  · simp only [makeTime]
    rw [if_pos (by norm_num [Duration.Year])]
    norm_num [Duration.Year]
  · simp only [makeTime]
    rw [if_neg (by norm_num [Duration.Year]), if_pos (by norm_num [Duration.Month])]
    rw [show (6480000 : ℚ) / Duration.Month = 5 / 2 from by norm_num [Duration.Month]]
    rw [show jsMod ((5 : ℚ) / 2) 30 = 5 / 2 from by
      unfold jsMod jsTrunc
      rw [if_pos (by norm_num),
        ratFloorEq ((5 : ℚ) / 2 / 30) 0 (by norm_num) (by norm_num)]
      norm_num]
    rw [ratFloorEq ((5 : ℚ) / 2) 2 (by norm_num) (by norm_num)]
  · rw [show ((6480000 : ℚ) - 2 * Duration.Month) / Duration.Day = ((15 : ℤ) : ℚ) from by
      norm_num [Duration.Month, Duration.Day]]
    exact Int.floor_intCast 15

/-- C2 amended: `makeTime` is a strictly descending, mutually exclusive
threshold cascade (years, 30-day months, days, hours, minutes) in which
exactly one branch fires, but the two-part shape differs from the claim in
two branches: the years branch returns the (fractional) year count alone,
and the months branch's second component is `floor(months % 30)` — the
whole-month count for any duration under 30 months — rather than the
remaining days; the days, hours and minutes branches return the whole
coarse count plus the remainder in the next-finer unit, and sub-minute
input delegates to the magnitude formatter `makeUnit`. -/
theorem makeTime_eq_makeTimeSpec (secs : ℚ) : makeTime secs = makeTimeSpec secs := by
  have hY : (0 : ℚ) < Duration.Year := by norm_num [Duration.Year]
  have hM : (0 : ℚ) < Duration.Month := by norm_num [Duration.Month]
  have hD : (0 : ℚ) < Duration.Day := by norm_num [Duration.Day]
  have hH : (0 : ℚ) < Duration.Hour := by norm_num [Duration.Hour]
  have hMin : (0 : ℚ) < Duration.Minutes := by norm_num [Duration.Minutes]
  simp only [makeTime, makeTimeSpec]
  by_cases h1 : Duration.Year ≤ secs
  · rw [if_pos ((one_le_div hY).mpr h1), if_pos h1]
  · rw [if_neg (fun hc => h1 ((one_le_div hY).mp hc)), if_neg h1]
    by_cases h2 : Duration.Month ≤ secs
    · rw [if_pos ((one_le_div hM).mpr h2), if_pos h2]
    · rw [if_neg (fun hc => h2 ((one_le_div hM).mp hc)), if_neg h2]
      by_cases h3 : Duration.Day ≤ secs
      · rw [if_pos ((one_le_div hD).mpr h3), if_pos h3]
      · rw [if_neg (fun hc => h3 ((one_le_div hD).mp hc)), if_neg h3]
        by_cases h4 : Duration.Hour ≤ secs
        · rw [if_pos ((one_le_div hH).mpr h4), if_pos h4]
        · rw [if_neg (fun hc => h4 ((one_le_div hH).mp hc)), if_neg h4]
          by_cases h5 : Duration.Minutes ≤ secs
          · rw [if_pos ((one_le_div hMin).mpr h5), if_pos h5]
          · rw [if_neg (fun hc => h5 ((one_le_div hMin).mp hc)), if_neg h5]

theorem updateLineGo_getD (vnorm : Vec3 → Vec3) (sfuv : Vec3 → Vec3 → Quat)
    (frame : Option (List Vec3)) (scale : ℚ) (traj : List Vec3) :
    ∀ (line : List RenderObject) (prev : Vec3) (n k : ℕ), k < line.length →
      (updateLineGo vnorm sfuv frame scale traj prev n line).getD k defaultRenderObject =
        ⟨linePos frame scale traj (n + k),
         sfuv upVector (vnorm (((linePos frame scale traj (n + k)).sub
           (if k = 0 then prev else linePos frame scale traj (n + k - 1))).neg))⟩ := by
  intro line
  induction line with
  | nil =>
    intro prev n k hk
    simp at hk
  | cons v rest ih =>
    intro prev n k hk
    cases k with
    | zero =>
      simp [updateLineGo, linePos]
    | succ k =>
      have hk' : k < rest.length := by simpa using hk
      simp only [updateLineGo, List.getD_cons_succ]
      rw [ih _ (n + 1) k hk']
      rcases Nat.eq_zero_or_pos k with h0 | hpos
      · subst h0
        simp [linePos]
      · rw [if_neg (by omega : ¬ k = 0), if_neg (by omega : ¬ k + 1 = 0)]
        rw [show n + 1 + k - 1 = n + (k + 1) - 1 from by omega,
          show n + 1 + k = n + (k + 1) from by omega]

/-- C1: for every entity processed by the ribbon updater (the Barycenter
at entity index 0, then every Body in list order) and every sample index
`k` of its marker line, the written marker position is the entity's
trajectory sample `k` minus the frame trajectory's sample at the same
index `k`, scaled by `settings.scale`, whenever the frame selector is not
Fixed; with the Fixed selector the raw sample scaled by `settings.scale`
is written. -/
theorem updateLinesObject_frame_relative (vnorm : Vec3 → Vec3) (sfuv : Vec3 → Vec3 → Quat)
    (points : List Point) (bary : Barycenter) (lines : List (List RenderObject))
    (settings : Settings) (i k : ℕ)
    (hi : i < points.length + 1) (hil : i < lines.length)
    (hk : k < (lines.getD i []).length) :
    (settings.frame = Frame.fixed →
      (((updateLinesObject vnorm sfuv points bary lines settings).getD i []).getD k
          defaultRenderObject).position
        = (trajGet ((bary.trajectory :: points.map Point.trajectory).getD i []) k).multiplyScalar
            settings.scale)
  ∧ (∀ f, frameTrajectory settings.frame points bary = some f →
      (((updateLinesObject vnorm sfuv points bary lines settings).getD i []).getD k
          defaultRenderObject).position
        = ((trajGet ((bary.trajectory :: points.map Point.trajectory).getD i []) k).sub
            (trajGet f k)).multiplyScalar settings.scale) := by
  have hi' : i < (bary.trajectory :: points.map Point.trajectory).length := by
    simp only [List.length_cons, List.length_map]
    omega
  have hzip : (updateLinesObject vnorm sfuv points bary lines settings).getD i []
      = updateLineGo vnorm sfuv (frameTrajectory settings.frame points bary) settings.scale
          ((bary.trajectory :: points.map Point.trajectory).getD i []) Vec3.zero 0
          (lines.getD i []) := by
    unfold updateLinesObject
    exact zipWithGetD _ [] [] [] _ _ i hi' hil
  constructor
  · intro hf
    rw [hzip, updateLineGo_getD vnorm sfuv _ _ _ _ _ 0 k hk, hf]
    simp [linePos, frameTrajectory, Vec3.sub_zeroVec]
  · intro f hf
    rw [hzip, updateLineGo_getD vnorm sfuv _ _ _ _ _ 0 k hk, hf]
    simp [linePos]

theorem updateLinesObject_frame_relative_witness :
    (((updateLinesObject (fun v => v) (fun a d => ⟨d.x, d.y, d.z, a.y⟩)
        [⟨"earth", 1, ⟨1, 2, 3⟩, Vec3.zero, [⟨1, 2, 3⟩, ⟨4, 5, 6⟩]⟩]
        ⟨⟨7, 8, 9⟩, [⟨0, 0, 1⟩, ⟨1, 1, 1⟩]⟩
        [[defaultRenderObject, defaultRenderObject],
         [defaultRenderObject, defaultRenderObject]]
        ⟨2, 10, 5, Frame.barycenter⟩).getD 1 []).getD 1 defaultRenderObject).position
      = ⟨6, 8, 10⟩ := by
  have h := updateLinesObject_frame_relative (fun v => v) (fun a d => ⟨d.x, d.y, d.z, a.y⟩)
    [⟨"earth", 1, ⟨1, 2, 3⟩, Vec3.zero, [⟨1, 2, 3⟩, ⟨4, 5, 6⟩]⟩]
    ⟨⟨7, 8, 9⟩, [⟨0, 0, 1⟩, ⟨1, 1, 1⟩]⟩
    [[defaultRenderObject, defaultRenderObject],
     [defaultRenderObject, defaultRenderObject]]
    ⟨2, 10, 5, Frame.barycenter⟩ 1 1 (by norm_num) (by norm_num)
    (by simp [List.getD])
  refine (h.2 [⟨0, 0, 1⟩, ⟨1, 1, 1⟩] rfl).trans ?_
  norm_num [trajGet, List.getD, Vec3.sub, Vec3.multiplyScalar]

/-- C7: every trajectory marker is assigned the quaternion obtained by
feeding the canonical up axis `(0, 1, 0)` and the facing direction into
the shortest-arc rotation constructor (three.js `setFromUnitVectors`,
here the parameter `sfuv`), where the facing direction is the normalised
(`vnorm`) negation of the vector from the previous marker's just-written
render-space position (the world origin when `k = 0`) to this marker's
render-space position. -/
theorem updateLinesObject_marker_orientation (vnorm : Vec3 → Vec3)
    (sfuv : Vec3 → Vec3 → Quat) (points : List Point) (bary : Barycenter)
    (lines : List (List RenderObject)) (settings : Settings) (i k : ℕ)
    (hi : i < points.length + 1) (hil : i < lines.length)
    (hk : k < (lines.getD i []).length) :
    (((updateLinesObject vnorm sfuv points bary lines settings).getD i []).getD k
        defaultRenderObject).quaternion
      = sfuv upVector (vnorm
          (((linePos (frameTrajectory settings.frame points bary) settings.scale
              ((bary.trajectory :: points.map Point.trajectory).getD i []) k).sub
            (if k = 0 then Vec3.zero
             else linePos (frameTrajectory settings.frame points bary) settings.scale
               ((bary.trajectory :: points.map Point.trajectory).getD i []) (k - 1))).neg)) := by
  have hi' : i < (bary.trajectory :: points.map Point.trajectory).length := by
    simp only [List.length_cons, List.length_map]
    omega
  have hzip : (updateLinesObject vnorm sfuv points bary lines settings).getD i []
      = updateLineGo vnorm sfuv (frameTrajectory settings.frame points bary) settings.scale
          ((bary.trajectory :: points.map Point.trajectory).getD i []) Vec3.zero 0
          (lines.getD i []) := by
    unfold updateLinesObject
    exact zipWithGetD _ [] [] [] _ _ i hi' hil
  rw [hzip, updateLineGo_getD vnorm sfuv _ _ _ _ _ 0 k hk]
  simp

theorem updateLinesObject_marker_orientation_witness :
    (((updateLinesObject (fun v => v) (fun a d => ⟨d.x, d.y, d.z, a.y⟩)
        [⟨"earth", 1, ⟨1, 2, 3⟩, Vec3.zero, [⟨1, 2, 3⟩, ⟨4, 5, 6⟩]⟩]
        ⟨⟨7, 8, 9⟩, [⟨0, 0, 1⟩, ⟨1, 1, 1⟩]⟩
        [[defaultRenderObject, defaultRenderObject],
         [defaultRenderObject, defaultRenderObject]]
        ⟨2, 10, 5, Frame.barycenter⟩).getD 1 []).getD 1 defaultRenderObject).quaternion
      = ⟨-4, -4, -6, 1⟩ := by
  have h := updateLinesObject_marker_orientation (fun v => v)
    (fun a d => ⟨d.x, d.y, d.z, a.y⟩)
    [⟨"earth", 1, ⟨1, 2, 3⟩, Vec3.zero, [⟨1, 2, 3⟩, ⟨4, 5, 6⟩]⟩]
    ⟨⟨7, 8, 9⟩, [⟨0, 0, 1⟩, ⟨1, 1, 1⟩]⟩
    [[defaultRenderObject, defaultRenderObject],
     [defaultRenderObject, defaultRenderObject]]
    ⟨2, 10, 5, Frame.barycenter⟩ 1 1 (by norm_num) (by norm_num)
    (by simp [List.getD])
  refine h.trans ?_
  norm_num [linePos, frameTrajectory, trajGet, List.getD, upVector,
    Vec3.sub, Vec3.neg, Vec3.multiplyScalar]
